import Mathlib

/-!
Verification of the CwaWeather backend request handlers.

The development shallowly embeds the two request handlers of the service
(`getWeatherByCity` and `reverseGeocode`, in both the three-field and the
five-field address variant found in the repository) together with the
city-name normalization helper `normalizeTaiwanCityName`.

Modelling conventions:
* Query parameters and the API credential are `Option String`
  (`none` = absent, matching an undefined JS value); the JS falsiness
  test `!s` on a `string | undefined` value holds exactly for `none`
  and `some ""`.
* The upstream HTTP call is an explicit input of type `UpstreamResult`:
  either a successful JSON payload, a failure that carries a response
  (`error.response` present, with a status code and an optional body),
  or a failure with no response (network error / local throw).
* Each handler returns its HTTP response paired with a `Bool` recording
  whether the outbound call was attempted (the code reaches the
  `axios.get` expression).
* A thrown JS `TypeError` inside the `try` block (e.g. indexing an
  element series out of range) is modelled by `Option`: a `none`
  result of the extraction reaches the `catch` block with no
  `error.response`, hence the fixed 500 response.
-/

/-- JS `x || d` for strings: `x` when non-empty, else `d`. -/
def jsOrStr (x d : String) : String := if x = "" then d else x

section WeatherModel

/-- Upstream JSON: `time[i].parameter` object. -/
structure CwaParameter where
  parameterName : String
  deriving DecidableEq

/-- Upstream JSON: one entry of an element's `time` array. -/
structure CwaTime where
  startTime : String
  endTime : String
  parameter : CwaParameter
  deriving DecidableEq

/-- Upstream JSON: one `weatherElement` series. -/
structure CwaElement where
  elementName : String
  time : List CwaTime
  deriving DecidableEq

/-- Upstream JSON: one `location` entry. -/
structure CwaLocation where
  locationName : String
  weatherElement : List CwaElement
  deriving DecidableEq

/-- Upstream JSON: the `records` object; `location` may be absent. -/
structure CwaRecords where
  datasetDescription : String
  location : Option (List CwaLocation)
  deriving DecidableEq

/-- Upstream JSON: the whole weather payload; `records` may be absent. -/
structure CwaData where
  records : Option CwaRecords
  deriving DecidableEq

/-- Error body attached to a failed weather call (`error.response.data`);
its `message` field may be absent. -/
structure CwaErrBody where
  message : Option String
  deriving DecidableEq

/-- Outcome of the single outbound call a handler makes: success with a
payload, an HTTP failure carrying `error.response` (status and optional
body), or a failure with no response at all. -/
inductive UpstreamResult (α : Type) (β : Type) where
  | success (data : α)
  | httpFailure (status : Nat) (body : β)
  | networkFailure
  deriving DecidableEq

/-- One entry of the `forecasts` array built by the handler.  All six
value fields are strings, initialised to `""`. -/
structure Forecast where
  startTime : String
  endTime : String
  weather : String
  rain : String
  minTemp : String
  maxTemp : String
  comfort : String
  windSpeed : String
  deriving DecidableEq

/-- The `data` object of a successful weather response. -/
structure WeatherData where
  city : String
  updateTime : String
  forecasts : List Forecast
  deriving DecidableEq

/-- The weather handler's possible JSON responses. -/
inductive WeatherResponse where
  | serverMisconfig
  | missingParam
  | notFound (city : String)
  | okData (data : WeatherData)
  | upstreamError (status : Nat) (message : String)
  | internalError
  deriving DecidableEq

/-- HTTP status code of each weather response (`res.status(...)`;
`res.json` without a status sends 200). -/
def WeatherResponse.status : WeatherResponse → Nat
  | .serverMisconfig => 500
  | .missingParam => 400
  | .notFound _ => 404
  | .okData _ => 200
  | .upstreamError s _ => s
  | .internalError => 500

/-- The `switch (element.elementName)` body: write the element's value at
the current index into the matching field; `PoP` gets a `%` suffix,
`MinT`/`MaxT` get a `°C` suffix, unrecognized codes fall through. -/
def applyElement (f : Forecast) (name : String) (v : String) : Forecast :=
  if name = "Wx" then { f with weather := v }
  else if name = "PoP" then { f with rain := v ++ "%" }
  else if name = "MinT" then { f with minTemp := v ++ "°C" }
  else if name = "MaxT" then { f with maxTemp := v ++ "°C" }
  else if name = "CI" then { f with comfort := v }
  else if name = "WS" then { f with windSpeed := v }
  else f

/-- The `weatherElements.forEach` loop at time index `i`: each element's
`time[i].parameter.parameterName` is written via `applyElement`.
`none` models the `TypeError` thrown when `element.time[i]` is out of
range (`undefined.parameter`). -/
def applyElements (elems : List CwaElement) (i : Nat) (f : Forecast) : Option Forecast :=
  match elems with
  | [] => some f
  | e :: rest =>
    match e.time[i]? with
    | none => none
    | some t => applyElements rest i (applyElement f e.elementName t.parameter.parameterName)

/-- The forecast object literal before the `forEach` loop: time bounds
from the first series at index `i`, all six value fields `""`. -/
def initForecast (t : CwaTime) : Forecast :=
  { startTime := t.startTime, endTime := t.endTime, weather := "", rain := "",
    minTemp := "", maxTemp := "", comfort := "", windSpeed := "" }

/-- A concrete forecast, used to instantiate universally quantified
theorems at a specific input. -/
def sampleForecast : Forecast :=
  { startTime := "2026-10-11 06:00:00", endTime := "2026-10-11 18:00:00",
    weather := "", rain := "", minTemp := "", maxTemp := "", comfort := "", windSpeed := "" }

/-- One iteration of the `for (let i = 0; i < timeCount; i++)` loop. -/
def buildAt (elems : List CwaElement) (e0 : CwaElement) (i : Nat) : Option Forecast :=
  match e0.time[i]? with
  | none => none
  | some t0 => applyElements elems i (initForecast t0)

/-- The whole `for` loop over the given index list, pushing one forecast
per index; a thrown error (`none`) aborts the loop. -/
def buildLoop (elems : List CwaElement) (e0 : CwaElement) : List Nat → Option (List Forecast)
  | [] => some []
  | i :: is =>
    match buildAt elems e0 i with
    | none => none
    | some f =>
      match buildLoop elems e0 is with
      | none => none
      | some fs => some (f :: fs)

/-- Extraction of the `forecasts` array from `locationData.weatherElement`:
`timeCount` is the length of the first element's `time` series;
an empty element list throws (`weatherElements[0].time` on `undefined`). -/
def buildForecasts (elems : List CwaElement) : Option (List Forecast) :=
  match elems with
  | [] => none
  | e0 :: rest => buildLoop (e0 :: rest) e0 (List.range e0.time.length)

/-- Message of the weather upstream-error response:
`error.response.data?.message || "無法取得天氣資料"`. -/
def cwaErrMessage (body : Option CwaErrBody) : String :=
  jsOrStr ((body.bind (fun b => b.message)).getD "") "無法取得天氣資料"

/-- The `getWeatherByCity` handler.  `apiKey` is `CWA_API_KEY`,
`cityParam` is `req.query.city`, `upstream` the outcome of the CWA call.
The returned `Bool` is `true` exactly when the outbound call was
attempted. -/
def getWeatherByCity (apiKey cityParam : Option String)
    (upstream : UpstreamResult CwaData (Option CwaErrBody)) :
    WeatherResponse × Bool :=
  match apiKey with
  | none => (.serverMisconfig, false)
  | some key =>
    if key = "" then (.serverMisconfig, false)
    else
      match cityParam with
      | none => (.missingParam, false)
      | some city =>
        if city = "" then (.missingParam, false)
        else
          match upstream with
          | .networkFailure => (.internalError, true)
          | .httpFailure st body => (.upstreamError st (cwaErrMessage body), true)
          | .success data =>
            match data.records with
            | none => (.notFound city, true)
            | some records =>
              match records.location with
              | none => (.notFound city, true)
              | some [] => (.notFound city, true)
              | some (loc :: _) =>
                match buildForecasts loc.weatherElement with
                | none => (.internalError, true)
                | some fs =>
                  (.okData { city := loc.locationName,
                             updateTime := records.datasetDescription,
                             forecasts := fs }, true)

end WeatherModel

section GeoModel

/-- Upstream JSON: the Nominatim `address` object.  Each field is a
string with `""` standing for an absent field — JS `||` treats
`undefined` and `""` identically. -/
structure NomAddress where
  county : String
  city : String
  town : String
  city_district : String
  state : String
  deriving DecidableEq

/-- The empty address object (`data.address || \x7b\x7d`). -/
def emptyAddress : NomAddress :=
  { county := "", city := "", town := "", city_district := "", state := "" }

/-- Upstream JSON: the whole Nominatim payload; `address` may be absent. -/
structure NomData where
  address : Option NomAddress
  deriving DecidableEq

/-- Error body of a failed geocode call: either a plain string body or an
object whose `error` field may be absent. -/
inductive GeoErrBody where
  | str (s : String)
  | obj (error : Option String)
  deriving DecidableEq

/-- The geocode handler's possible JSON responses. -/
inductive GeoResponse where
  | missingParam
  | notFound (raw : NomData)
  | okCity (city : String) (raw : NomData)
  | upstreamError (status : Nat) (message : String)
  | internalError
  deriving DecidableEq

/-- HTTP status code of each geocode response. -/
def GeoResponse.status : GeoResponse → Nat
  | .missingParam => 400
  | .notFound _ => 404
  | .okCity _ _ => 200
  | .upstreamError s _ => s
  | .internalError => 500

/-- Five-field selection:
`address.county || address.city || address.town || address.city_district || address.state || ""`. -/
def selectCityName (a : NomAddress) : String :=
  jsOrStr a.county (jsOrStr a.city (jsOrStr a.town (jsOrStr a.city_district (jsOrStr a.state ""))))

/-- Three-field selection (`server.js` variant):
`address.city || address.county || address.state || ""`. -/
def selectCityNameSimple (a : NomAddress) : String :=
  jsOrStr a.city (jsOrStr a.county (jsOrStr a.state ""))

/-- The static legacy→canonical glyph table
(`台北市/台中市/台南市/台東縣` → `臺…`); `none` for every other name. -/
def cityMapping (name : String) : Option String :=
  if name = "台北市" then some "臺北市"
  else if name = "台中市" then some "臺中市"
  else if name = "台南市" then some "臺南市"
  else if name = "台東縣" then some "臺東縣"
  else none

/-- `mapping[rawCityName] || rawCityName` as used inside `reverseGeocode`. -/
def normalizeInline (name : String) : String :=
  jsOrStr ((cityMapping name).getD "") name

/-- Message of the geocode upstream-error response, five-field variant:
a string body is used as-is, an object body contributes a truthy
`error` field, otherwise the fixed fallback. -/
def geoErrMessage (body : Option GeoErrBody) : String :=
  match body with
  | some (.str s) => s
  | some (.obj e) => jsOrStr (e.getD "") "無法取得縣市資訊"
  | none => "無法取得縣市資訊"

/-- Message of the geocode upstream-error response, `server.js` variant:
`error.response.data?.error || "無法取得縣市資訊"` (a string body has no
`error` property, so it falls back). -/
def geoErrMessageSimple (body : Option GeoErrBody) : String :=
  match body with
  | some (.obj e) => jsOrStr (e.getD "") "無法取得縣市資訊"
  | some (.str _) => "無法取得縣市資訊"
  | none => "無法取得縣市資訊"

/-- The five-field `reverseGeocode` handler: select by
`county → city → town → city_district → state`, then normalize via the
inline mapping.  The `Bool` records whether the outbound call was
attempted. -/
def reverseGeocode (lat lng : Option String)
    (upstream : UpstreamResult NomData (Option GeoErrBody)) :
    GeoResponse × Bool :=
  match lat with
  | none => (.missingParam, false)
  | some la =>
    if la = "" then (.missingParam, false)
    else
      match lng with
      | none => (.missingParam, false)
      | some lo =>
        if lo = "" then (.missingParam, false)
        else
          match upstream with
          | .networkFailure => (.internalError, true)
          | .httpFailure st body => (.upstreamError st (geoErrMessage body), true)
          | .success data =>
            let address := data.address.getD emptyAddress
            let rawCityName := selectCityName address
            if rawCityName = "" then (.notFound data, true)
            else (.okCity (normalizeInline rawCityName) data, true)

/-- The three-field `reverseGeocode` handler (`server.js` variant):
select by `city → county → state` and return the name verbatim, with no
normalization. -/
def reverseGeocodeSimple (lat lng : Option String)
    (upstream : UpstreamResult NomData (Option GeoErrBody)) :
    GeoResponse × Bool :=
  match lat with
  | none => (.missingParam, false)
  | some la =>
    if la = "" then (.missingParam, false)
    else
      match lng with
      | none => (.missingParam, false)
      | some lo =>
        if lo = "" then (.missingParam, false)
        else
          match upstream with
          | .networkFailure => (.internalError, true)
          | .httpFailure st body => (.upstreamError st (geoErrMessageSimple body), true)
          | .success data =>
            let address := data.address.getD emptyAddress
            let cityName := selectCityNameSimple address
            if cityName = "" then (.notFound data, true)
            else (.okCity cityName data, true)

end GeoModel

section NormalizeModel

end NormalizeModel

section WitnessInputs

/-- Concrete address with only `state` populated. -/
def stateOnlyAddress : NomAddress :=
  { county := "", city := "", town := "", city_district := "", state := "臺灣省" }

/-- Concrete weather element: a `Wx` series of length two. -/
def sampleWxElement : CwaElement :=
  { elementName := "Wx",
    time := [ { startTime := "t1s", endTime := "t1e", parameter := { parameterName := "晴" } },
              { startTime := "t2s", endTime := "t2e", parameter := { parameterName := "多雲" } } ] }

/-- Concrete weather element: a `PoP` series of length two. -/
def samplePopElement : CwaElement :=
  { elementName := "PoP",
    time := [ { startTime := "t1s", endTime := "t1e", parameter := { parameterName := "30" } },
              { startTime := "t2s", endTime := "t2e", parameter := { parameterName := "10" } } ] }

/-- Concrete upstream location carrying the two sample series. -/
def sampleLocation : CwaLocation :=
  { locationName := "高雄市", weatherElement := [sampleWxElement, samplePopElement] }

end WitnessInputs

/-! ## Claim theorems -/

/-- Claim C6: while the API credential is unset (absent or empty), every
weather request returns the `ServerMisconfiguration` error with HTTP
status 500, and the outbound-call flag is `false`: no call to the
weather endpoint is attempted, whatever the city parameter and whatever
the upstream would have answered. -/
theorem c6_missing_credential_fails_fast :
    (∀ (cityParam : Option String) (upstream : UpstreamResult CwaData (Option CwaErrBody)),
        getWeatherByCity none cityParam upstream = (.serverMisconfig, false)
      ∧ getWeatherByCity (some "") cityParam upstream = (.serverMisconfig, false))
  ∧ WeatherResponse.status .serverMisconfig = 500 := by
  refine ⟨fun cityParam upstream => ⟨rfl, by simp [getWeatherByCity]⟩, rfl⟩

/-- Claim C10: the missing-credential check runs before the city-parameter
check.  With the credential unset, the response is the 500
`ServerMisconfiguration` error even when the city parameter is also
missing or empty; conversely a `MissingParameter` response can only
arise when the credential is set to a non-empty key. -/
theorem c10_credential_check_precedes_city_check :
    (∀ (upstream : UpstreamResult CwaData (Option CwaErrBody)),
        getWeatherByCity none none upstream = (.serverMisconfig, false)
      ∧ getWeatherByCity none (some "") upstream = (.serverMisconfig, false)
      ∧ getWeatherByCity (some "") none upstream = (.serverMisconfig, false)
      ∧ getWeatherByCity (some "") (some "") upstream = (.serverMisconfig, false))
  ∧ ∀ (apiKey cityParam : Option String) (upstream : UpstreamResult CwaData (Option CwaErrBody)),
      (getWeatherByCity apiKey cityParam upstream).fst = .missingParam →
      ∃ key, apiKey = some key ∧ key ≠ "" := by
  constructor
  · intro upstream
    exact ⟨rfl, rfl, by simp [getWeatherByCity], by simp [getWeatherByCity]⟩
  · intro apiKey cityParam upstream h
    match apiKey with
    | none => simp [getWeatherByCity] at h
    | some key =>
      by_cases hkey : key = ""
      · subst hkey; simp [getWeatherByCity] at h
      · exact ⟨key, rfl, hkey⟩

/-- Witness for C10 at concrete inputs. -/
theorem c10_credential_check_precedes_city_check_witness :
    getWeatherByCity none none .networkFailure = (.serverMisconfig, false)
  ∧ ∃ key, (some "k" : Option String) = some key ∧ key ≠ "" :=
  ⟨(c10_credential_check_precedes_city_check.1 .networkFailure).1,
   c10_credential_check_precedes_city_check.2 (some "k") none .networkFailure (by decide)⟩

/-- Claim C1 fails on the code: with the credential unset AND the city
parameter missing, the handler returns the 500 `ServerMisconfiguration`
error, not the 400 `MissingParameter` error — the credential check runs
first. -/
theorem c1_counterexample_misconfig_shadows_missing_city :
    getWeatherByCity none none (.success { records := none }) = (.serverMisconfig, false)
  ∧ WeatherResponse.serverMisconfig ≠ WeatherResponse.missingParam
  ∧ WeatherResponse.status .serverMisconfig = 500
  ∧ (500 : Nat) ≠ 400 := by decide

/-- Claim C1 (amended): provided the API credential is set to a non-empty
key, every request whose city parameter is missing or empty returns the
`MissingParameter` error with HTTP status 400 and attempts no outbound
call. -/
theorem c1_missing_city_param_rejected (apiKey : Option String) (key : String)
    (hk : apiKey = some key) (hkey : key ≠ "")
    (cityParam : Option String) (hc : cityParam = none ∨ cityParam = some "")
    (upstream : UpstreamResult CwaData (Option CwaErrBody)) :
    getWeatherByCity apiKey cityParam upstream = (.missingParam, false)
  ∧ WeatherResponse.status .missingParam = 400 := by
  subst hk
  rcases hc with h | h <;> subst h <;> exact ⟨by simp [getWeatherByCity, hkey], rfl⟩

/-- Witness for the amended C1 at concrete inputs. -/
theorem c1_missing_city_param_rejected_witness :
    getWeatherByCity (some "k") none .networkFailure = (.missingParam, false)
  ∧ WeatherResponse.status .missingParam = 400 :=
  c1_missing_city_param_rejected (some "k") "k" rfl (by decide) none (Or.inl rfl) .networkFailure

/-- Claim C5: for every upstream weather payload whose location list is
empty or absent — including an absent `records` object — the handler
returns the `NotFound` error with HTTP status 404, which is never an
`okData` response, so no `WeatherResult` is produced. -/
theorem c5_empty_locations_not_found (apiKey : Option String) (key : String)
    (hk : apiKey = some key) (hkey : key ≠ "") (city : String) (hcity : city ≠ "") :
    getWeatherByCity apiKey (some city) (.success { records := none }) = (.notFound city, true)
  ∧ (∀ d : String,
      getWeatherByCity apiKey (some city)
        (.success { records := some { datasetDescription := d, location := none } })
      = (.notFound city, true))
  ∧ (∀ d : String,
      getWeatherByCity apiKey (some city)
        (.success { records := some { datasetDescription := d, location := some [] } })
      = (.notFound city, true))
  ∧ (∀ w : WeatherData, WeatherResponse.notFound city ≠ .okData w)
  ∧ WeatherResponse.status (.notFound city) = 404 := by
  subst hk
  refine ⟨by simp [getWeatherByCity, hkey, hcity],
          fun d => by simp [getWeatherByCity, hkey, hcity],
          fun d => by simp [getWeatherByCity, hkey, hcity],
          fun w h => WeatherResponse.noConfusion h,
          rfl⟩

/-- Witness for C5 at concrete inputs. -/
theorem c5_empty_locations_not_found_witness :
    getWeatherByCity (some "k") (some "高雄市") (.success { records := none })
      = (.notFound "高雄市", true)
  ∧ WeatherResponse.status (.notFound "高雄市") = 404 :=
  ⟨(c5_empty_locations_not_found (some "k") "k" rfl (by decide) "高雄市" (by decide)).1,
   (c5_empty_locations_not_found (some "k") "k" rfl (by decide) "高雄市" (by decide)).2.2.2.2⟩

/-- Claim C2: classification of failed upstream calls, in both handlers.
A failure carrying an upstream response is surfaced with exactly the
upstream's status code and the upstream body's own message (the weather
body's `message` field; for geocode, the body's `error` field or a plain
string body); a failure with no response yields the fixed
`InternalError` with status 500. -/
theorem c2_upstream_failure_classification
    (apiKey : Option String) (key : String) (hk : apiKey = some key) (hkey : key ≠ "")
    (city : String) (hcity : city ≠ "")
    (lat lng : String) (hlat : lat ≠ "") (hlng : lng ≠ "")
    (st : Nat) (m : String) (hm : m ≠ "") :
    (getWeatherByCity apiKey (some city) (.httpFailure st (some { message := some m }))
        = (.upstreamError st m, true)
      ∧ WeatherResponse.status (.upstreamError st m) = st)
  ∧ (getWeatherByCity apiKey (some city) .networkFailure = (.internalError, true)
      ∧ WeatherResponse.status .internalError = 500)
  ∧ (reverseGeocode (some lat) (some lng) (.httpFailure st (some (.obj (some m))))
        = (.upstreamError st m, true)
      ∧ reverseGeocode (some lat) (some lng) (.httpFailure st (some (.str m)))
        = (.upstreamError st m, true)
      ∧ GeoResponse.status (.upstreamError st m) = st)
  ∧ (reverseGeocode (some lat) (some lng) .networkFailure = (.internalError, true)
      ∧ GeoResponse.status .internalError = 500) := by
  subst hk
  refine ⟨⟨?_, rfl⟩, ⟨?_, rfl⟩, ⟨?_, ?_, rfl⟩, ⟨?_, rfl⟩⟩
  · simp [getWeatherByCity, hkey, hcity, cwaErrMessage, jsOrStr, hm]
  · simp [getWeatherByCity, hkey, hcity]
  · simp [reverseGeocode, hlat, hlng, geoErrMessage, jsOrStr, hm]
  · simp [reverseGeocode, hlat, hlng, geoErrMessage]
  · simp [reverseGeocode, hlat, hlng]

/-- Witness for C2: the spec's scenario — upstream answers HTTP 401 with
body message "invalid key". -/
theorem c2_upstream_failure_classification_witness :
    getWeatherByCity (some "k") (some "高雄市")
      (.httpFailure 401 (some { message := some "invalid key" }))
      = (.upstreamError 401 "invalid key", true)
  ∧ getWeatherByCity (some "k") (some "高雄市") .networkFailure = (.internalError, true) :=
  ⟨(c2_upstream_failure_classification (some "k") "k" rfl (by decide) "高雄市" (by decide)
      "25.0478" "121.5319" (by decide) (by decide) 401 "invalid key" (by decide)).1.1,
   (c2_upstream_failure_classification (some "k") "k" rfl (by decide) "高雄市" (by decide)
      "25.0478" "121.5319" (by decide) (by decide) 401 "invalid key" (by decide)).2.1.1⟩

/-- Claim C4: the per-element write performed at every time slot.  The
`PoP` value is written into `rain` with a literal `%` appended, the
`MinT`/`MaxT` values into `minTemp`/`maxTemp` with `°C` appended, the
`Wx`/`CI`/`WS` values are copied verbatim into `weather`/`comfort`/
`windSpeed`, and an element whose code is none of the six leaves the
forecast unchanged. -/
theorem c4_element_write_rules (f : Forecast) (v : String) :
    applyElement f "Wx" v = { f with weather := v }
  ∧ applyElement f "PoP" v = { f with rain := v ++ "%" }
  ∧ applyElement f "MinT" v = { f with minTemp := v ++ "°C" }
  ∧ applyElement f "MaxT" v = { f with maxTemp := v ++ "°C" }
  ∧ applyElement f "CI" v = { f with comfort := v }
  ∧ applyElement f "WS" v = { f with windSpeed := v }
  ∧ ∀ name : String, name ≠ "Wx" → name ≠ "PoP" → name ≠ "MinT" →
      name ≠ "MaxT" → name ≠ "CI" → name ≠ "WS" →
      applyElement f name v = f := by
  refine ⟨rfl, by simp [applyElement], by simp [applyElement], by simp [applyElement],
          by simp [applyElement], by simp [applyElement], ?_⟩
  intro name h1 h2 h3 h4 h5 h6
  simp [applyElement, h1, h2, h3, h4, h5, h6]

/-- Witness for C4 at concrete inputs, including an unrecognized code. -/
theorem c4_element_write_rules_witness :
    applyElement sampleForecast "PoP" "30" = { sampleForecast with rain := "30%" }
  ∧ applyElement sampleForecast "UVI" "3" = sampleForecast :=
  ⟨(c4_element_write_rules sampleForecast "30").2.1,
   (c4_element_write_rules sampleForecast "3").2.2.2.2.2.2 "UVI"
      (by decide) (by decide) (by decide) (by decide) (by decide) (by decide)⟩

/-- Helper: `jsOrStr x d = x` when `x` is non-empty. -/
theorem jsOrStr_of_ne (x d : String) (hx : x ≠ "") : jsOrStr x d = x := by
  unfold jsOrStr; rw [if_neg hx]

/-- Helper: `jsOrStr "" d = d`. -/
theorem jsOrStr_empty_left (d : String) : jsOrStr "" d = d := by
  unfold jsOrStr; rw [if_pos rfl]

/-- Helper: `jsOrStr x "" = x` whether or not `x` is empty. -/
theorem jsOrStr_empty_right (x : String) : jsOrStr x "" = x := by
  unfold jsOrStr
  split_ifs with h
  · exact h.symm
  · rfl

/-- Claim C7: the five-field handler selects the first non-empty field in
the order `county → city → town → city_district → state`, the
three-field handler in the order `city → county → state`; when every
field in the respective order is empty the handler returns `NotFound`
with HTTP status 404; and when only `state` is populated among the
preference fields, both variants select the `state` value. -/
theorem c7_address_field_selection (a : NomAddress) (lat lng : String)
    (hlat : lat ≠ "") (hlng : lng ≠ "") (data : NomData) (hd : data.address = some a) :
    (a.county ≠ "" → selectCityName a = a.county)
  ∧ (a.county = "" → a.city ≠ "" → selectCityName a = a.city)
  ∧ (a.county = "" → a.city = "" → a.town ≠ "" → selectCityName a = a.town)
  ∧ (a.county = "" → a.city = "" → a.town = "" → a.city_district ≠ "" →
      selectCityName a = a.city_district)
  ∧ (a.county = "" → a.city = "" → a.town = "" → a.city_district = "" →
      selectCityName a = a.state)
  ∧ (a.city ≠ "" → selectCityNameSimple a = a.city)
  ∧ (a.city = "" → a.county ≠ "" → selectCityNameSimple a = a.county)
  ∧ (a.city = "" → a.county = "" → selectCityNameSimple a = a.state)
  ∧ (selectCityName a = "" →
      reverseGeocode (some lat) (some lng) (.success data) = (.notFound data, true)
      ∧ GeoResponse.status (.notFound data) = 404)
  ∧ (selectCityNameSimple a = "" →
      reverseGeocodeSimple (some lat) (some lng) (.success data) = (.notFound data, true)
      ∧ GeoResponse.status (.notFound data) = 404)
  ∧ (a.county = "" → a.city = "" → a.town = "" → a.city_district = "" →
      selectCityName a = a.state ∧ selectCityNameSimple a = a.state) := by
  refine ⟨?_, ?_, ?_, ?_, ?_, ?_, ?_, ?_, ?_, ?_, ?_⟩
  · intro h; exact jsOrStr_of_ne _ _ h
  · intro h1 h2
    unfold selectCityName
    rw [h1, jsOrStr_empty_left, jsOrStr_of_ne _ _ h2]
  · intro h1 h2 h3
    unfold selectCityName
    rw [h1, h2, jsOrStr_empty_left, jsOrStr_empty_left, jsOrStr_of_ne _ _ h3]
  · intro h1 h2 h3 h4
    unfold selectCityName
    rw [h1, h2, h3, jsOrStr_empty_left, jsOrStr_empty_left, jsOrStr_empty_left,
        jsOrStr_of_ne _ _ h4]
  · intro h1 h2 h3 h4
    unfold selectCityName
    rw [h1, h2, h3, h4, jsOrStr_empty_left, jsOrStr_empty_left, jsOrStr_empty_left,
        jsOrStr_empty_left, jsOrStr_empty_right]
  · intro h; exact jsOrStr_of_ne _ _ h
  · intro h1 h2
    unfold selectCityNameSimple
    rw [h1, jsOrStr_empty_left, jsOrStr_of_ne _ _ h2]
  · intro h1 h2
    unfold selectCityNameSimple
    rw [h1, h2, jsOrStr_empty_left, jsOrStr_empty_left, jsOrStr_empty_right]
  · intro h
    exact ⟨by simp [reverseGeocode, hlat, hlng, hd, h], rfl⟩
  · intro h
    exact ⟨by simp [reverseGeocodeSimple, hlat, hlng, hd, h], rfl⟩
  · intro h1 h2 h3 h4
    constructor
    · unfold selectCityName
      rw [h1, h2, h3, h4, jsOrStr_empty_left, jsOrStr_empty_left, jsOrStr_empty_left,
          jsOrStr_empty_left, jsOrStr_empty_right]
    · unfold selectCityNameSimple
      rw [h2, h1, jsOrStr_empty_left, jsOrStr_empty_left, jsOrStr_empty_right]

/-- Witness for C7: a state-only address selects the state in both
variants; an all-empty address yields the 404 `NotFound` response. -/
theorem c7_address_field_selection_witness :
    (selectCityName stateOnlyAddress = stateOnlyAddress.state
      ∧ selectCityNameSimple stateOnlyAddress = stateOnlyAddress.state)
  ∧ (reverseGeocode (some "25.0478") (some "121.5319")
        (.success { address := some emptyAddress })
        = (.notFound { address := some emptyAddress }, true)
      ∧ GeoResponse.status (.notFound { address := some emptyAddress }) = 404) :=
  ⟨(c7_address_field_selection stateOnlyAddress "25.0478" "121.5319"
      (by decide) (by decide) { address := some stateOnlyAddress } rfl).2.2.2.2.2.2.2.2.2.2
      rfl rfl rfl rfl,
   (c7_address_field_selection emptyAddress "25.0478" "121.5319"
      (by decide) (by decide) { address := some emptyAddress } rfl).2.2.2.2.2.2.2.2.1
      (by decide)⟩

/-- Helper: the element scan succeeds when every series covers index `i`. -/
theorem applyElements_some (elems : List CwaElement) (i : Nat) (f : Forecast)
    (h : ∀ e ∈ elems, i < e.time.length) :
    ∃ g, applyElements elems i f = some g := by
  induction elems generalizing f with
  | nil => exact ⟨f, rfl⟩
  | cons e rest ih =>
    have he : i < e.time.length := h e (List.mem_cons_self e rest)
    cases hti : e.time[i]? with
    | none =>
      rw [List.getElem?_eq_getElem he] at hti
      simp at hti
    | some t =>
      obtain ⟨g, hg⟩ := ih (applyElement f e.elementName t.parameter.parameterName)
        (fun e' he' => h e' (List.mem_cons_of_mem _ he'))
      exact ⟨g, by simp [applyElements, hti, hg]⟩

/-- Helper: a non-`Wx` element leaves `weather` unchanged. -/
theorem applyElement_weather (f : Forecast) (name v : String) (h : name ≠ "Wx") :
    (applyElement f name v).weather = f.weather := by
  unfold applyElement
  split_ifs <;> simp_all

/-- Helper: a non-`PoP` element leaves `rain` unchanged. -/
theorem applyElement_rain (f : Forecast) (name v : String) (h : name ≠ "PoP") :
    (applyElement f name v).rain = f.rain := by
  unfold applyElement
  split_ifs <;> simp_all

/-- Helper: a non-`MinT` element leaves `minTemp` unchanged. -/
theorem applyElement_minTemp (f : Forecast) (name v : String) (h : name ≠ "MinT") :
    (applyElement f name v).minTemp = f.minTemp := by
  unfold applyElement
  split_ifs <;> simp_all

/-- Helper: a non-`MaxT` element leaves `maxTemp` unchanged. -/
theorem applyElement_maxTemp (f : Forecast) (name v : String) (h : name ≠ "MaxT") :
    (applyElement f name v).maxTemp = f.maxTemp := by
  unfold applyElement
  split_ifs <;> simp_all

/-- Helper: a non-`CI` element leaves `comfort` unchanged. -/
theorem applyElement_comfort (f : Forecast) (name v : String) (h : name ≠ "CI") :
    (applyElement f name v).comfort = f.comfort := by
  unfold applyElement
  split_ifs <;> simp_all

/-- Helper: a non-`WS` element leaves `windSpeed` unchanged. -/
theorem applyElement_windSpeed (f : Forecast) (name v : String) (h : name ≠ "WS") :
    (applyElement f name v).windSpeed = f.windSpeed := by
  unfold applyElement
  split_ifs <;> simp_all

/-- Helper: the element scan preserves any forecast projection that every
scanned element leaves unchanged. -/
theorem applyElements_preserve (elems : List CwaElement) (i : Nat) (f g : Forecast)
    (proj : Forecast → String)
    (hstep : ∀ (f' : Forecast) (e : CwaElement), e ∈ elems →
        ∀ v, proj (applyElement f' e.elementName v) = proj f')
    (h : applyElements elems i f = some g) : proj g = proj f := by
  induction elems generalizing f with
  | nil =>
    simp only [applyElements] at h
    injection h with h
    rw [h]
  | cons e rest ih =>
    cases hti : e.time[i]? with
    | none => simp [applyElements, hti] at h
    | some t =>
      simp only [applyElements, hti] at h
      have hrec := ih (applyElement f e.elementName t.parameter.parameterName)
        (fun f' e' he' v => hstep f' e' (List.mem_cons_of_mem _ he') v) h
      rw [hrec, hstep f e (List.mem_cons_self e rest) _]

/-- Helper: the index loop succeeds and yields one forecast per index when
each iteration succeeds, and every produced forecast comes from some
iteration. -/
theorem buildLoop_some (elems : List CwaElement) (e0 : CwaElement) (is : List Nat)
    (h : ∀ i ∈ is, ∃ g, buildAt elems e0 i = some g) :
    ∃ fs, buildLoop elems e0 is = some fs ∧ fs.length = is.length ∧
      ∀ f ∈ fs, ∃ i ∈ is, buildAt elems e0 i = some f := by
  induction is with
  | nil => exact ⟨[], rfl, rfl, by simp⟩
  | cons i is ih =>
    obtain ⟨g, hg⟩ := h i (List.mem_cons_self i is)
    obtain ⟨fs, hfs, hlen, hmem⟩ := ih (fun j hj => h j (List.mem_cons_of_mem _ hj))
    refine ⟨g :: fs, by simp [buildLoop, hg, hfs], by simp [hlen], ?_⟩
    intro f hf
    rcases List.mem_cons.mp hf with h1 | h1
    · exact ⟨i, List.mem_cons_self i is, h1 ▸ hg⟩
    · obtain ⟨j, hj, hbj⟩ := hmem f h1
      exact ⟨j, List.mem_cons_of_mem _ hj, hbj⟩

/-- Claim C3: for every well-formed upstream weather payload with a
non-empty location list whose element series all have the length of the
first series, the handler returns a success whose `forecasts` array has
exactly that time-series length, and in every window each of the six
value fields — all of type `String` by construction of `Forecast` —
equals `""` whenever no element with the corresponding code is present. -/
theorem c3_forecast_array_shape (apiKey : Option String) (key : String)
    (hk : apiKey = some key) (hkey : key ≠ "") (city : String) (hcity : city ≠ "")
    (d : String) (locs : List CwaLocation) (loc : CwaLocation)
    (e0 : CwaElement) (es : List CwaElement)
    (helems : loc.weatherElement = e0 :: es)
    (hlen : ∀ e ∈ loc.weatherElement, e.time.length = e0.time.length) :
    ∃ w : WeatherData,
      getWeatherByCity apiKey (some city)
        (.success { records := some { datasetDescription := d, location := some (loc :: locs) } })
        = (.okData w, true)
    ∧ w.forecasts.length = e0.time.length
    ∧ ∀ f ∈ w.forecasts,
        ((∀ e ∈ loc.weatherElement, e.elementName ≠ "Wx") → f.weather = "")
      ∧ ((∀ e ∈ loc.weatherElement, e.elementName ≠ "PoP") → f.rain = "")
      ∧ ((∀ e ∈ loc.weatherElement, e.elementName ≠ "MinT") → f.minTemp = "")
      ∧ ((∀ e ∈ loc.weatherElement, e.elementName ≠ "MaxT") → f.maxTemp = "")
      ∧ ((∀ e ∈ loc.weatherElement, e.elementName ≠ "CI") → f.comfort = "")
      ∧ ((∀ e ∈ loc.weatherElement, e.elementName ≠ "WS") → f.windSpeed = "") := by
  subst hk
  have hAll : ∀ i ∈ List.range e0.time.length, ∃ g, buildAt loc.weatherElement e0 i = some g := by
    intro i hi
    have hi0 : i < e0.time.length := List.mem_range.mp hi
    cases ht0 : e0.time[i]? with
    | none =>
      rw [List.getElem?_eq_getElem hi0] at ht0
      simp at ht0
    | some t0 =>
      obtain ⟨g, hg⟩ := applyElements_some loc.weatherElement i (initForecast t0)
        (fun e he => (hlen e he) ▸ hi0)
      exact ⟨g, by simp [buildAt, ht0, hg]⟩
  obtain ⟨fs, hfs, hlenfs, hmem⟩ :=
    buildLoop_some loc.weatherElement e0 (List.range e0.time.length) hAll
  have hbf : buildForecasts loc.weatherElement = some fs := by
    rw [helems] at hfs ⊢
    simpa [buildForecasts] using hfs
  refine ⟨{ city := loc.locationName, updateTime := d, forecasts := fs },
          by simp [getWeatherByCity, hkey, hcity, hbf], by simpa using hlenfs, ?_⟩
  intro f hf
  obtain ⟨i, hi, hbi⟩ := hmem f hf
  cases ht0 : e0.time[i]? with
  | none => simp [buildAt, ht0] at hbi
  | some t0 =>
    simp only [buildAt, ht0] at hbi
    refine ⟨fun hno => ?_, fun hno => ?_, fun hno => ?_, fun hno => ?_,
            fun hno => ?_, fun hno => ?_⟩
    · exact (applyElements_preserve _ i _ f Forecast.weather
        (fun f' e he v => applyElement_weather f' e.elementName v (hno e he)) hbi).trans rfl
    · exact (applyElements_preserve _ i _ f Forecast.rain
        (fun f' e he v => applyElement_rain f' e.elementName v (hno e he)) hbi).trans rfl
    · exact (applyElements_preserve _ i _ f Forecast.minTemp
        (fun f' e he v => applyElement_minTemp f' e.elementName v (hno e he)) hbi).trans rfl
    · exact (applyElements_preserve _ i _ f Forecast.maxTemp
        (fun f' e he v => applyElement_maxTemp f' e.elementName v (hno e he)) hbi).trans rfl
    · exact (applyElements_preserve _ i _ f Forecast.comfort
        (fun f' e he v => applyElement_comfort f' e.elementName v (hno e he)) hbi).trans rfl
    · exact (applyElements_preserve _ i _ f Forecast.windSpeed
        (fun f' e he v => applyElement_windSpeed f' e.elementName v (hno e he)) hbi).trans rfl

/-- Witness for C3: a concrete payload with two series (`Wx`, `PoP`) of
length two. -/
theorem c3_forecast_array_shape_witness :
    ∃ w : WeatherData,
      getWeatherByCity (some "k") (some "高雄市")
        (.success { records := some { datasetDescription := "desc",
                                      location := some [sampleLocation] } })
        = (.okData w, true)
    ∧ w.forecasts.length = sampleWxElement.time.length
    ∧ ∀ f ∈ w.forecasts,
        ((∀ e ∈ sampleLocation.weatherElement, e.elementName ≠ "Wx") → f.weather = "")
      ∧ ((∀ e ∈ sampleLocation.weatherElement, e.elementName ≠ "PoP") → f.rain = "")
      ∧ ((∀ e ∈ sampleLocation.weatherElement, e.elementName ≠ "MinT") → f.minTemp = "")
      ∧ ((∀ e ∈ sampleLocation.weatherElement, e.elementName ≠ "MaxT") → f.maxTemp = "")
      ∧ ((∀ e ∈ sampleLocation.weatherElement, e.elementName ≠ "CI") → f.comfort = "")
      ∧ ((∀ e ∈ sampleLocation.weatherElement, e.elementName ≠ "WS") → f.windSpeed = "") :=
  c3_forecast_array_shape (some "k") "k" rfl (by decide) "高雄市" (by decide)
    "desc" [] sampleLocation sampleWxElement [samplePopElement] rfl (by decide)
